import Mathlib

/-
Verification development for the Starship simulator repository.

The definitions below are a shallow embedding of the JavaScript sources
into Lean over the real numbers: THREE.js vectors become records of reals,
the physics engine state (scripts/improved_physics.js), the Mechazilla
catch simulation and the mission phase state machine become explicit
state-passing functions.  JavaScript floating point arithmetic is
idealised as real arithmetic; Math.sqrt, Math.exp, Math.sin and Math.cos
become Real.sqrt, Real.exp, Real.sin and Real.cos, which makes most
definitions noncomputable but keeps them faithful to the formulas in the
source.
-/

noncomputable section

open Classical

/-- Two dimensional vector of reals, embedding THREE.Vector2. -/
structure Vec2 where
  x : ℝ
  y : ℝ

/-- Three dimensional vector of reals, embedding THREE.Vector3.
Euler angle triples (THREE.Euler) are also represented by this type. -/
structure Vec3 where
  x : ℝ
  y : ℝ
  z : ℝ

namespace Vec2

/-- Componentwise addition (THREE.Vector2.add). -/
def add (a b : Vec2) : Vec2 := ⟨a.x + b.x, a.y + b.y⟩

/-- Componentwise subtraction (THREE.Vector2.subVectors). -/
def sub (a b : Vec2) : Vec2 := ⟨a.x - b.x, a.y - b.y⟩

/-- Scalar multiple (THREE.Vector2.multiplyScalar). -/
def smul (c : ℝ) (a : Vec2) : Vec2 := ⟨c * a.x, c * a.y⟩

/-- The zero vector (new THREE.Vector2(0, 0)). -/
def zero : Vec2 := ⟨0, 0⟩

/-- Squared length, x*x + y*y (THREE.Vector2.lengthSq). -/
def normSq (a : Vec2) : ℝ := a.x ^ 2 + a.y ^ 2

/-- Length (THREE.Vector2.length). -/
def norm (a : Vec2) : ℝ := Real.sqrt a.normSq

/-- Unit vector in the direction of a (THREE.Vector2.normalize divides by
the length when it is nonzero and leaves the zero vector unchanged). -/
def normalize (a : Vec2) : Vec2 := if a.norm = 0 then a else smul (1 / a.norm) a

end Vec2

namespace Vec3

/-- Componentwise addition (THREE.Vector3.add). -/
def add (a b : Vec3) : Vec3 := ⟨a.x + b.x, a.y + b.y, a.z + b.z⟩

/-- Componentwise subtraction (THREE.Vector3.subVectors). -/
def sub (a b : Vec3) : Vec3 := ⟨a.x - b.x, a.y - b.y, a.z - b.z⟩

/-- Scalar multiple (THREE.Vector3.multiplyScalar). -/
def smul (c : ℝ) (a : Vec3) : Vec3 := ⟨c * a.x, c * a.y, c * a.z⟩

/-- Componentwise negation (THREE.Vector3.negate). -/
def neg (a : Vec3) : Vec3 := ⟨-a.x, -a.y, -a.z⟩

/-- The zero vector (new THREE.Vector3(0, 0, 0)). -/
def zero : Vec3 := ⟨0, 0, 0⟩

/-- Squared length, x*x + y*y + z*z (THREE.Vector3.lengthSq). -/
def normSq (a : Vec3) : ℝ := a.x ^ 2 + a.y ^ 2 + a.z ^ 2

/-- Length (THREE.Vector3.length). -/
def norm (a : Vec3) : ℝ := Real.sqrt a.normSq

/-- Unit vector in the direction of a (THREE.Vector3.normalize divides by
the length when it is nonzero and leaves the zero vector unchanged). -/
def normalize (a : Vec3) : Vec3 := if a.norm = 0 then a else smul (1 / a.norm) a

/-- Distance between two points (THREE.Vector3.distanceTo). -/
def distTo (a b : Vec3) : ℝ := (sub a b).norm

/-- Linear interpolation a + t * (b - a) (THREE.Vector3.lerp). -/
def lerp (a b : Vec3) (t : ℝ) : Vec3 := add a (smul t (sub b a))

end Vec3

/-- Quaternion record, embedding THREE.Quaternion. -/
structure Quat where
  x : ℝ
  y : ℝ
  z : ℝ
  w : ℝ

/-- Quaternion from Euler angles in XYZ order, the formula used by
THREE.Quaternion.setFromEuler for the default XYZ rotation order. -/
def quatFromEulerXYZ (r : Vec3) : Quat :=
  let c1 := Real.cos (r.x / 2)
  let c2 := Real.cos (r.y / 2)
  let c3 := Real.cos (r.z / 2)
  let s1 := Real.sin (r.x / 2)
  let s2 := Real.sin (r.y / 2)
  let s3 := Real.sin (r.z / 2)
  ⟨s1 * c2 * c3 + c1 * s2 * s3,
   c1 * s2 * c3 - s1 * c2 * s3,
   c1 * c2 * s3 + s1 * s2 * c3,
   c1 * c2 * c3 - s1 * s2 * s3⟩

/-- Rotation of a vector by a quaternion, the componentwise formula of
THREE.Vector3.applyQuaternion. -/
def Vec3.applyQuaternion (v : Vec3) (q : Quat) : Vec3 :=
  let ix := q.w * v.x + q.y * v.z - q.z * v.y
  let iy := q.w * v.y + q.z * v.x - q.x * v.z
  let iz := q.w * v.z + q.x * v.y - q.y * v.x
  let iw := -q.x * v.x - q.y * v.y - q.z * v.z
  ⟨ix * q.w + iw * (-q.x) + iy * (-q.z) - iz * (-q.y),
   iy * q.w + iw * (-q.y) + iz * (-q.x) - ix * (-q.z),
   iz * q.w + iw * (-q.z) + ix * (-q.y) - iy * (-q.x)⟩

/-
PID controllers, embedding updatePID of scripts/improved_physics.js
(lines 761 to 867).  The JavaScript method dispatches on the runtime type
of the error signal; the three branches become three Lean functions over
scalar, Vec2 and Vec3 controller states.
-/
/-- Scalar PID controller state (the verticalVelocity controller record of
scripts/improved_physics.js). -/
structure PIDScalar where
  kP : ℝ
  kI : ℝ
  kD : ℝ
  setpoint : ℝ
  integral : ℝ
  previousError : ℝ
  output : ℝ
  maxOutput : ℝ
  minOutput : ℝ

/-- Vec2 PID controller state (the horizontalPosition controller record). -/
structure PIDVec2 where
  kP : ℝ
  kI : ℝ
  kD : ℝ
  setpoint : Vec2
  integral : Vec2
  previousError : Vec2
  output : Vec2
  maxOutput : ℝ
  minOutput : ℝ

/-- Vec3 PID controller state (the attitude controller record; its Euler
setpoint is read componentwise, so it is a Vec3 here). -/
structure PIDVec3 where
  kP : ℝ
  kI : ℝ
  kD : ℝ
  setpoint : Vec3
  integral : Vec3
  previousError : Vec3
  output : Vec3
  maxOutput : ℝ
  minOutput : ℝ

/-- Scalar branch of updatePID (improved_physics.js lines 840 to 866):
error from the setpoint, derivative over deltaTime, integral accumulated
then clamped to the output bounds, output clamped to the output bounds. -/
def updatePIDScalar (c : PIDScalar) (currentValue : ℝ) (deltaTime : ℝ) : PIDScalar :=
  let error := c.setpoint - currentValue
  let derivative := (error - c.previousError) / deltaTime
  let integral0 := c.integral + error * deltaTime
  let integral := max c.minOutput (min c.maxOutput integral0)
  let output0 := c.kP * error + c.kI * integral + c.kD * derivative
  let output := max c.minOutput (min c.maxOutput output0)
  { c with integral := integral, output := output, previousError := error }

/-- Vec2 branch of updatePID (improved_physics.js lines 762 to 796): the
integral and the combined output are clamped by rescaling whenever their
length exceeds maxOutput. -/
def updatePIDVec2 (c : PIDVec2) (currentValue : Vec2) (deltaTime : ℝ) : PIDVec2 :=
  let error := c.setpoint.sub currentValue
  let derivative := Vec2.smul (1 / deltaTime) (error.sub c.previousError)
  let integral0 := c.integral.add (Vec2.smul deltaTime error)
  let integral :=
    if integral0.norm > c.maxOutput then Vec2.smul c.maxOutput integral0.normalize
    else integral0
  let output0 :=
    (Vec2.smul c.kP error).add ((Vec2.smul c.kI integral).add (Vec2.smul c.kD derivative))
  let output :=
    if output0.norm > c.maxOutput then Vec2.smul c.maxOutput output0.normalize
    else output0
  { c with integral := integral, output := output, previousError := error }

/-- Vec3 branch of updatePID (improved_physics.js lines 797 to 839), the
same computation as the Vec2 branch on three components. -/
def updatePIDVec3 (c : PIDVec3) (currentValue : Vec3) (deltaTime : ℝ) : PIDVec3 :=
  let error := c.setpoint.sub currentValue
  let derivative := Vec3.smul (1 / deltaTime) (error.sub c.previousError)
  let integral0 := c.integral.add (Vec3.smul deltaTime error)
  let integral :=
    if integral0.norm > c.maxOutput then Vec3.smul c.maxOutput integral0.normalize
    else integral0
  let output0 :=
    (Vec3.smul c.kP error).add ((Vec3.smul c.kI integral).add (Vec3.smul c.kD derivative))
  let output :=
    if output0.norm > c.maxOutput then Vec3.smul c.maxOutput output0.normalize
    else output0
  { c with integral := integral, output := output, previousError := error }

/-
Atmosphere models.
-/
/-- Exponential atmosphere of calculateAirDensity in
scripts/improved_physics.js (lines 639 to 642): sea level density times
exp(-altitude / scale height).  The engine constants are
airDensitySeaLevel = 1.225 and atmosphereScaleHeight = 8500, passed here
as parameters. -/
def calculateAirDensity (airDensitySeaLevel atmosphereScaleHeight altitude : ℝ) : ℝ :=
  airDensitySeaLevel * Real.exp (-altitude / atmosphereScaleHeight)

/-- Atmospheric state produced by the layered model of
AerospacePhysicsEngine.updateAtmosphericConditions. -/
structure AtmosphericConditions where
  temperature : ℝ
  pressure : ℝ
  density : ℝ

/-- Layered atmosphere of AerospacePhysicsEngine.updateAtmosphericConditions
(aerospace_physics.js, src/unnamed/part_002 lines 2164 to 2191), as a pure
function of the reference altitude.  Constants from the engine constructor:
SEA_LEVEL_TEMP = 288.15, LAPSE_RATE = 0.0065, STANDARD_ATMOSPHERE = 101325,
SCALE_HEIGHT = 8400, GAS_CONSTANT_AIR = 287.05. -/
def updateAtmosphericConditions (maxAltitude : ℝ) : AtmosphericConditions :=
  let tp : ℝ × ℝ :=
    if maxAltitude < 11000 then
      let t := 288.15 - 0.0065 * maxAltitude
      (t, 101325 * (t / 288.15) ^ (5.2561 : ℝ))
    else if maxAltitude < 50000 then
      (216.65, 22632 * Real.exp (-0.0001577 * (maxAltitude - 11000)))
    else
      (max 180 (500 - maxAltitude * 0.008),
       max 0.001 (101325 * Real.exp (-maxAltitude / 8400)))
  ⟨tp.1, tp.2, tp.2 / (287.05 * tp.1)⟩

/-
Vehicle and engine state of scripts/improved_physics.js.
-/
/-- Deployable surface state (the gridFins and flaps records of the
vehicle objects: deployed flag, effectiveness fraction and drag
contribution constant). -/
structure FinState where
  deployed : Bool
  effectiveness : ℝ
  dragContribution : ℝ

/-- Landing phase strings of scripts/improved_physics.js
(this.landingPhase). -/
inductive LandingPhase where
  | none
  | approach
  | final
  | touchdown
  | coast
  | boostback
  | entry
  | descent
  | landing
  | returnPhase
  deriving DecidableEq, Repr

/-- Booster return sub phase strings of initializeBoosterReturn
(this.returnParams.phase). -/
inductive ReturnPhase where
  | coast
  | flip
  | burn
  | approach
  deriving DecidableEq, Repr

/-- Booster return trajectory parameters (this.returnParams, created by
initializeBoosterReturn). -/
structure ReturnParams where
  startTime : ℝ
  coastDuration : ℝ
  turnDuration : ℝ
  burnDuration : ℝ
  phase : ReturnPhase

/-- Landing parameter state (this.landingParams).  Only the two mutable
timing fields are modelled; the constant altitude and throttle
configuration fields of the constructor are read by no operation embedded
here and are omitted. -/
structure LandingParams where
  phaseStartTime : ℝ
  currentPhaseTime : ℝ

/-- The three PID controllers of the engine (this.pidControllers). -/
structure PIDControllers where
  verticalVelocity : PIDScalar
  horizontalPosition : PIDVec2
  attitude : PIDVec3

/-- Vehicle record of scripts/improved_physics.js (this.vehicles.starship
and this.vehicles.superHeavy).  The gridFinDeflection field is undefined
in JavaScript until reset or the landing controller writes it; the model
gives it a real value (0 after reset), which covers every post reset
state.  Fields read by no embedded operation (heat shield, engine timing
constants, landing legs) are omitted. -/
structure Vehicle where
  mass : ℝ
  fuel : ℝ
  maxThrust : ℝ
  dragCoefficient : ℝ
  crossSectionalArea : ℝ
  position : Vec3
  velocity : Vec3
  acceleration : Vec3
  rotation : Vec3
  angularVelocity : Vec3
  throttle : ℝ
  active : Bool
  gimbalPosition : Vec2
  gridFinDeflection : ℝ
  gridFins : Option FinState
  flaps : Option FinState

/-- Engine state of ImprovedPhysicsEngine.  landingStartAltitude,
hoverAltitude and touchdownSpeed are undefined in the constructor and
first written by the startLandingSequence command of the driver; the
JavaScript truthiness test on landingStartAltitude treats undefined and 0
alike, so the model uses 0 for the unset state. -/
structure Engine where
  gravity : ℝ
  atmosphericDensity : ℝ
  airDensitySeaLevel : ℝ
  atmosphereScaleHeight : ℝ
  windSpeed : ℝ
  windDirection : ℝ
  gustStrength : ℝ
  turbulenceIntensity : ℝ
  simulationTime : ℝ
  combinedStage : Bool
  separationCompleted : Bool
  separationTimer : Option ℝ
  superHeavy : Vehicle
  starship : Vehicle
  landingTarget : Vec3
  landingPhase : LandingPhase
  landingParams : LandingParams
  pidControllers : PIDControllers
  returnParams : Option ReturnParams
  landingStartAltitude : ℝ
  hoverAltitude : ℝ
  touchdownSpeed : ℝ

/-
Force model, calculateForces of scripts/improved_physics.js (lines 359 to
450).  The five contributions are named term by term so each theorem can
speak about one of them; calculateForces sums them exactly as the source
adds them into one accumulator.
-/
/-- Gravity contribution (line 363): weight mass plus fuel times gravity,
pointing down. -/
def gravityTerm (e : Engine) (v : Vehicle) : Vec3 :=
  ⟨0, -(e.gravity * (v.mass + v.fuel)), 0⟩

/-- Thrust contribution (lines 367 to 395): active only when throttle
exceeds 0; direction built from the gimbal deflection, rotated by the
quaternion of the vehicle Euler rotation and normalized, scaled by
maxThrust times throttle. -/
def thrustTerm (v : Vehicle) : Vec3 :=
  if v.throttle > 0 then
    let thrustDirection : Vec3 := ⟨v.gimbalPosition.x * 0.1, 1.0, v.gimbalPosition.y * 0.1⟩
    let rotated := (thrustDirection.applyQuaternion (quatFromEulerXYZ v.rotation)).normalize
    Vec3.smul (v.maxThrust * v.throttle) rotated
  else Vec3.zero

/-- Atmospheric density factor at the vehicle altitude (line 400):
exp(-altitude / 11000) times the engine sea level density. -/
def densityFactor (e : Engine) (v : Vehicle) : ℝ :=
  Real.exp (-v.position.y / 11000) * e.atmosphericDensity

/-- Drag contribution (lines 403 to 411): skipped entirely when the
squared speed is 0, otherwise half rho v squared Cd A against the
velocity direction. -/
def dragTerm (e : Engine) (v : Vehicle) : Vec3 :=
  let velocitySquared := v.velocity.normSq
  if velocitySquared > 0 then
    let dragMagnitude := 0.5 * densityFactor e v * velocitySquared *
      v.dragCoefficient * v.crossSectionalArea
    Vec3.smul dragMagnitude (v.velocity.normalize.neg)
  else Vec3.zero

/-- Grid fin force contribution (lines 414 to 424): active only when the
deflection is nonzero and the density factor exceeds 0.001. -/
def finTerm (e : Engine) (v : Vehicle) : Vec3 :=
  if v.gridFinDeflection ≠ 0 ∧ densityFactor e v > 0.001 then
    ⟨v.gridFinDeflection * v.velocity.normSq * 0.01 * densityFactor e v, 0, 0⟩
  else Vec3.zero

/-- Grid fin torque side effect (line 426): increment added to the z
angular velocity, under the same guard as the fin force. -/
def finAngularDelta (e : Engine) (v : Vehicle) (dt : ℝ) : ℝ :=
  if v.gridFinDeflection ≠ 0 ∧ densityFactor e v > 0.001 then
    v.gridFinDeflection * v.velocity.normSq * 0.0001 * densityFactor e v * dt
  else 0

/-- Wind force contribution (lines 430 to 447): active only when the wind
speed exceeds 0 and the density factor exceeds 0.001; a horizontal force
along the wind direction plus the gust component. -/
def windTerm (e : Engine) (v : Vehicle) : Vec3 :=
  if e.windSpeed > 0 ∧ densityFactor e v > 0.001 then
    let windDirection : Vec3 := ⟨Real.cos e.windDirection, 0, Real.sin e.windDirection⟩
    let gustVector := Vec3.smul e.gustStrength windDirection
    (Vec3.smul (e.windSpeed * densityFactor e v * v.crossSectionalArea * 0.5)
      windDirection).add gustVector
  else Vec3.zero

/-- Net force of calculateForces (lines 359 to 450): the sum of the five
contributions, together with the new z angular velocity produced by the
grid fin torque side effect. -/
def calculateForces (e : Engine) (v : Vehicle) (dt : ℝ) : Vec3 × Vehicle :=
  let forces := ((((gravityTerm e v).add (thrustTerm v)).add (dragTerm e v)).add
    (finTerm e v)).add (windTerm e v)
  (forces,
   { v with angularVelocity :=
      ⟨v.angularVelocity.x, v.angularVelocity.y,
       v.angularVelocity.z + finAngularDelta e v dt⟩ })

/-- Standalone drag helper calculateDrag of scripts/improved_physics.js
(lines 675 to 704): returns the zero vector outright when the speed is
below 0.01, otherwise computes drag from calculateAirDensity with the
coefficient increased by deployed grid fins (superHeavy) or flaps
(starship).  The JavaScript identity test against this.vehicles.superHeavy
is passed as the isSuperHeavy flag. -/
def calculateDrag (e : Engine) (v : Vehicle) (altitude : ℝ) (isSuperHeavy : Bool) : Vec3 :=
  let velocityMagnitude := v.velocity.norm
  if velocityMagnitude < 0.01 then Vec3.zero
  else
    let airDensity := calculateAirDensity e.airDensitySeaLevel e.atmosphereScaleHeight altitude
    let dragCoefficient :=
      match isSuperHeavy, v.gridFins, v.flaps with
      | true, some g, _ => if g.deployed then v.dragCoefficient + g.dragContribution * g.effectiveness
                           else v.dragCoefficient
      | false, _, some f => if f.deployed then v.dragCoefficient + f.dragContribution * f.effectiveness
                            else v.dragCoefficient
      | _, _, _ => v.dragCoefficient
    let dragForceMagnitude := 0.5 * airDensity * velocityMagnitude * velocityMagnitude *
      dragCoefficient * v.crossSectionalArea
    Vec3.smul (-dragForceMagnitude) v.velocity.normalize

/-
Integrators of scripts/improved_physics.js.
-/
/-- Per vehicle body of ImprovedPhysicsEngine.update (lines 266 to 330)
in the case where the landing control branch of line 274 is inactive
(landingPhase is none, or the vehicle is not the superHeavy booster):
skip inactive vehicles, cap the time step at 0.1, compute forces,
integrate acceleration, velocity, position and rotation by explicit
Euler steps, burn fuel while the throttle is positive, and clamp to the
ground when the vertical position drops below 0. -/
def updateVehicle (e : Engine) (v : Vehicle) (deltaTime : ℝ) : Vehicle :=
  if v.active = false then v
  else
    let dt := min deltaTime 0.1
    let fv := calculateForces e v dt
    let forces := fv.1
    let v1 := fv.2
    let totalMass := v1.mass + v1.fuel
    let acceleration : Vec3 :=
      ⟨forces.x / totalMass, forces.y / totalMass, forces.z / totalMass⟩
    let velocity := v1.velocity.add (Vec3.smul dt acceleration)
    let position := v1.position.add (Vec3.smul dt velocity)
    let rotation := v1.rotation.add (Vec3.smul dt v1.angularVelocity)
    let fuel :=
      if v1.throttle > 0 then max 0 (v1.fuel - v1.maxThrust * v1.throttle / 3000 * dt)
      else v1.fuel
    let v2 := { v1 with acceleration := acceleration, velocity := velocity,
                        position := position, rotation := rotation, fuel := fuel }
    if v2.position.y < 0 then
      { v2 with position := ⟨v2.position.x, 0, v2.position.z⟩,
                velocity := Vec3.zero, acceleration := Vec3.zero,
                angularVelocity := Vec3.zero }
    else v2

/-- ImprovedPhysicsEngine.updateVehiclePhysics (lines 1731 to 1776): cap
the time step at 0.1, compute forces (whose grid fin torque side effect
on the angular velocity applies even on the early return), return
unchanged when the total mass is not positive, otherwise integrate,
burn fuel when enginesOn holds and the throttle is positive, and clamp
to the ground.  The second component is the engine landingPhase after
the touchdown transition of lines 1772 to 1774, which fires only for the
superHeavy vehicle. -/
def updateVehiclePhysics (e : Engine) (v : Vehicle) (deltaTime : ℝ)
    (enginesOn : Bool) (isSuperHeavy : Bool) : Vehicle × LandingPhase :=
  let dt := min deltaTime 0.1
  let fv := calculateForces e v dt
  let forces := fv.1
  let v1 := fv.2
  let totalMass := v1.mass + v1.fuel
  if totalMass ≤ 0 then (v1, e.landingPhase)
  else
    let acceleration : Vec3 :=
      ⟨forces.x / totalMass, forces.y / totalMass, forces.z / totalMass⟩
    let velocity := v1.velocity.add (Vec3.smul dt acceleration)
    let position := v1.position.add (Vec3.smul dt velocity)
    let rotation := v1.rotation.add (Vec3.smul dt v1.angularVelocity)
    let fuel :=
      if enginesOn ∧ v1.throttle > 0 then
        max 0 (v1.fuel - v1.maxThrust * v1.throttle / 3000 * dt)
      else v1.fuel
    let v2 := { v1 with acceleration := acceleration, velocity := velocity,
                        position := position, rotation := rotation, fuel := fuel }
    if v2.position.y < 0 then
      ({ v2 with position := ⟨v2.position.x, 0, v2.position.z⟩,
                 velocity := Vec3.zero, acceleration := Vec3.zero,
                 angularVelocity := Vec3.zero },
       if isSuperHeavy ∧ e.landingPhase = LandingPhase.final then LandingPhase.touchdown
       else e.landingPhase)
    else (v2, e.landingPhase)

/-- Vehicle part of ImprovedPhysicsEngine.reset (lines 1827 to 1862):
kinematic state, throttle, grid fin deflection and gimbal return to
zero and the vehicle is reactivated at the given pad height; fuel, dry
mass, thrust and aerodynamic configuration are not touched. -/
def resetVehicle (v : Vehicle) (padHeight : ℝ) : Vehicle :=
  { v with position := ⟨0, padHeight, 0⟩,
           velocity := Vec3.zero,
           acceleration := Vec3.zero,
           rotation := Vec3.zero,
           angularVelocity := Vec3.zero,
           throttle := 0,
           gridFinDeflection := 0,
           gimbalPosition := Vec2.zero,
           active := true }

/-- ImprovedPhysicsEngine.reset (lines 1781 to 1945) in the ordinary
state where vehicles, landingParams and pidControllers already exist (the
constructor creates all three, so the initialize if missing fallbacks are
dead): separation state, wind, simulation time, landing phase and the PID
controllers are reinitialized; the vehicles are repositioned on the pad
with zero kinematic state; fuel, landingParams, returnParams and the
landing command configuration fields are not touched. -/
def reset (e : Engine) : Engine :=
  { e with separationTimer := none,
           separationCompleted := false,
           combinedStage := true,
           superHeavy := resetVehicle e.superHeavy 0.1,
           starship := resetVehicle e.starship 60.75,
           landingPhase := LandingPhase.none,
           pidControllers :=
            { verticalVelocity :=
               { e.pidControllers.verticalVelocity with
                  setpoint := 0, integral := 0, previousError := 0, output := 0 },
              horizontalPosition :=
               { e.pidControllers.horizontalPosition with
                  setpoint := Vec2.zero, integral := Vec2.zero,
                  previousError := Vec2.zero, output := Vec2.zero },
              attitude :=
               { e.pidControllers.attitude with
                  setpoint := Vec3.zero, integral := Vec3.zero,
                  previousError := Vec3.zero, output := Vec3.zero } },
           windSpeed := 0,
           gustStrength := 0,
           turbulenceIntensity := 0,
           simulationTime := 0 }

/-- ImprovedPhysicsEngine.initializeBoosterReturn (lines 1120 to 1137):
target the tower, enter the return landing phase and create the return
trajectory parameters stamped with the current simulation time. -/
def initializeBoosterReturn (e : Engine) : Engine :=
  { e with landingTarget := ⟨-120, 0, 0⟩,
           landingPhase := LandingPhase.returnPhase,
           returnParams := some ⟨e.simulationTime, 10.0, 5.0, 15.0, ReturnPhase.coast⟩ }

/-- Position of the Mechazilla arms used by updateMechazillaCatch
(line 1655). -/
def mechCatchPosition : Vec3 := ⟨-120, 100, 0⟩

/-- Return record of updateMechazillaCatch.  catchComplete is the
proposition the source stores as a boolean. -/
structure MechResult where
  position : Vec3
  velocity : Vec3
  acceleration : Vec3
  distanceToCatch : ℝ
  catchComplete : Prop
  engineThrottle : ℝ

/-- ImprovedPhysicsEngine.updateMechazillaCatch (lines 1636 to 1724):
guidance acceleration toward the catch position (distance dependent
desired speed, clamped to 5, blended by lerp), throttle from the
distance, an optional vertical correction, then a physics step.  The
capped dt computed at line 1652 is unused by the source, which passes the
raw deltaTime to updateVehiclePhysics; catchComplete compares the
distance computed from the position BEFORE the physics step against 10. -/
def updateMechazillaCatch (e : Engine) (deltaTime : ℝ) : Engine × MechResult :=
  let booster := e.superHeavy
  let distanceToCatch := booster.position.distTo mechCatchPosition
  let desiredSpeed := min 5 (distanceToCatch * 0.1)
  let direction := (mechCatchPosition.sub booster.position).normalize
  let currentSpeed := booster.velocity.norm
  let speedDiff := desiredSpeed - currentSpeed
  let accelerationFactor := min 2.0 (1.0 + distanceToCatch * 0.01)
  let accRaw := Vec3.smul (speedDiff * accelerationFactor) direction
  let acc := if accRaw.norm > 5.0 then Vec3.smul 5.0 accRaw.normalize else accRaw
  let blended := booster.acceleration.lerp acc 0.2
  let throttle := 0.1 + 0.2 * min 1.0 (distanceToCatch / 50)
  let corrected :=
    if |booster.position.y - mechCatchPosition.y| > 5 then
      ⟨blended.x, blended.y + (mechCatchPosition.y - booster.position.y) * 0.1, blended.z⟩
    else blended
  let b1 := { booster with acceleration := corrected, throttle := throttle }
  let step := updateVehiclePhysics e b1 deltaTime true true
  let b2 := step.1
  let b3 :=
    if distanceToCatch < 50 then
      { b2 with rotation := ⟨b2.rotation.x * 0.95, b2.rotation.y, b2.rotation.z * 0.95⟩ }
    else b2
  ({ e with superHeavy := b3, landingPhase := step.2 },
   ⟨b3.position, b3.velocity, b3.acceleration, distanceToCatch,
    distanceToCatch < 10, b3.throttle⟩)

/-
MechazillaCatchSimulation of src/unnamed/part_001 (mechazilla_catch.js).
-/
/-- State of MechazillaCatchSimulation: tower and arm geometry, arm
actuation state, outcome flags, last seen booster state and the tracking
system. -/
structure CatchState where
  towerHeight : ℝ
  towerPosition : Vec3
  armLength : ℝ
  armWidth : ℝ
  armPosition : Vec3
  armSpread : ℝ
  armSpeed : ℝ
  armClosingSpeed : ℝ
  catchPointsHeight : ℝ
  catchPointsRadius : ℝ
  armsOpen : Bool
  armsVerticalPosition : ℝ
  armsHorizontalPosition : ℝ
  catchInProgress : Bool
  catchSuccessful : Bool
  catchFailed : Bool
  boosterPosition : Vec3
  boosterVelocity : Vec3
  boosterOrientation : Vec3
  trackingError : Vec3
  trackingActive : Bool
  trackingRange : ℝ
  trackingAccuracy : ℝ

/-- Constructor state of MechazillaCatchSimulation (part_001 lines 427
to 462). -/
def mechInitialState : CatchState :=
  { towerHeight := 146,
    towerPosition := ⟨-50, 0, 0⟩,
    armLength := 20,
    armWidth := 2,
    armPosition := ⟨-50, 100, 0⟩,
    armSpread := 15,
    armSpeed := 2,
    armClosingSpeed := 1,
    catchPointsHeight := 71 * 0.8,
    catchPointsRadius := 4.5,
    armsOpen := true,
    armsVerticalPosition := 100,
    armsHorizontalPosition := 15,
    catchInProgress := false,
    catchSuccessful := false,
    catchFailed := false,
    boosterPosition := Vec3.zero,
    boosterVelocity := Vec3.zero,
    boosterOrientation := Vec3.zero,
    trackingError := Vec3.zero,
    trackingActive := false,
    trackingRange := 1000,
    trackingAccuracy := 0.1 }

/-- MechazillaCatchSimulation.initialize (lines 465 to 473). -/
def initializeCatch (s : CatchState) : CatchState :=
  { s with armsOpen := true, armsVerticalPosition := 100, armsHorizontalPosition := 15,
           catchInProgress := false, catchSuccessful := false, catchFailed := false,
           trackingActive := false }

/-- MechazillaCatchSimulation.reset (lines 629 to 638): initialize plus
the arm position. -/
def resetCatch (s : CatchState) : CatchState :=
  { s with armsOpen := true, armsVerticalPosition := 100, armsHorizontalPosition := 15,
           catchInProgress := false, catchSuccessful := false, catchFailed := false,
           trackingActive := false, armPosition := ⟨-50, 100, 0⟩ }

/-- MechazillaCatchSimulation.startTracking (lines 476 to 498): activate
tracking when the booster is within range and record the sampled tracking
error.  The source samples each error component as
(random - 0.5) * 2 * trackingAccuracy once per acquisition; the sampled
triple is passed here as the oracle argument rnd.  The velocity argument
of the source is unused. -/
def startTracking (s : CatchState) (boosterPosition _boosterVelocity : Vec3)
    (rnd : Vec3) : CatchState × Bool :=
  let distance := boosterPosition.distTo s.towerPosition
  if distance ≤ s.trackingRange then
    ({ s with trackingActive := true, trackingError := rnd }, true)
  else (s, false)

/-- MechazillaCatchSimulation.updateArmPosition (lines 501 to 519): servo
the arm height toward the booster catch point at a bounded rate, clamp to
the tower limits, and report whether the arms are within 1 meter of the
target height. -/
def updateArmPosition (s : CatchState) (boosterPosition : Vec3) (deltaTime : ℝ) :
    CatchState × Bool :=
  if s.trackingActive = false then (s, false)
  else
    let targetHeight := boosterPosition.y - (71 - s.catchPointsHeight)
    let heightDifference := targetHeight - s.armsVerticalPosition
    let heightMovement :=
      min |heightDifference| (s.armSpeed * deltaTime) * Real.sign heightDifference
    let moved := s.armsVerticalPosition + heightMovement
    let clamped := max 10 (min moved (s.towerHeight - 10))
    ({ s with armsVerticalPosition := clamped,
              armPosition := ⟨s.armPosition.x, clamped, s.armPosition.z⟩ },
     |heightDifference| < 1)

/-- MechazillaCatchSimulation.prepareForCatch (lines 522 to 530). -/
def prepareForCatch (s : CatchState) : CatchState × Bool :=
  if s.trackingActive = false then (s, false)
  else ({ s with armsOpen := true, armsHorizontalPosition := 15,
                 catchInProgress := true }, true)

/-- MechazillaCatchSimulation.attemptCatch (lines 533 to 584): while a
catch is in progress and the booster is horizontally aligned with the
tower and at arm height, the open arms close at the closing speed; at the
step where they reach the fully closed spread of 5 the outcome is
decided: success exactly when the vertical speed is under 2 and the
horizontal speed under 1, failure otherwise.  Outside the aligned band
the catch fails when the booster sinks 5 meters below the arms, and far
from the tower it fails when the booster is below 10 meters. -/
def attemptCatch (s : CatchState) (boosterPosition boosterVelocity : Vec3)
    (deltaTime : ℝ) : CatchState × Bool :=
  if s.catchInProgress = false then (s, false)
  else
    let dx := boosterPosition.x - s.towerPosition.x
    let dz := boosterPosition.z - s.towerPosition.z
    let horizontalDistance := Real.sqrt (dx ^ 2 + dz ^ 2)
    if horizontalDistance < 5 then
      let heightDifference :=
        |boosterPosition.y - (71 - s.catchPointsHeight) - s.armsVerticalPosition|
      if heightDifference < 2 then
        if s.armsOpen then
          let newSpread := s.armsHorizontalPosition - s.armClosingSpeed * deltaTime
          if newSpread ≤ 5 then
            let s1 := { s with armsOpen := false, armsHorizontalPosition := 5 }
            let verticalVelocity := |boosterVelocity.y|
            let horizontalVelocity :=
              Real.sqrt (boosterVelocity.x ^ 2 + boosterVelocity.z ^ 2)
            if verticalVelocity < 2 ∧ horizontalVelocity < 1 then
              ({ s1 with catchSuccessful := true }, true)
            else ({ s1 with catchFailed := true }, false)
          else ({ s with armsHorizontalPosition := newSpread }, false)
        else (s, false)
      else
        if boosterPosition.y < s.armsVerticalPosition - 5 then
          ({ s with catchFailed := true }, false)
        else (s, false)
    else
      if boosterPosition.y < 10 then ({ s with catchFailed := true }, false)
      else (s, false)

/-- MechazillaCatchSimulation.update (lines 601 to 626): record the
booster state, acquire tracking when inactive, servo the arms, arm the
catch when in position, and attempt the catch while neither outcome flag
is set. -/
def mechUpdate (s : CatchState) (boosterPosition boosterVelocity boosterOrientation : Vec3)
    (deltaTime : ℝ) (rnd : Vec3) : CatchState :=
  let s0 := { s with boosterPosition := boosterPosition,
                     boosterVelocity := boosterVelocity,
                     boosterOrientation := boosterOrientation }
  let s1 := if s0.trackingActive = false then
      (startTracking s0 boosterPosition boosterVelocity rnd).1
    else s0
  let armStep := updateArmPosition s1 boosterPosition deltaTime
  let s2 := armStep.1
  let s3 := if armStep.2 ∧ s2.catchInProgress = false then (prepareForCatch s2).1 else s2
  if s3.catchInProgress ∧ s3.catchSuccessful = false ∧ s3.catchFailed = false then
    (attemptCatch s3 boosterPosition boosterVelocity deltaTime).1
  else s3

/-
Mission phase state machine of src/unnamed/part_003 (main.js).
-/
/-- Mission phases of the MISSION_PHASES table. -/
inductive MissionPhase where
  | ready
  | launch
  | ascent
  | stageSeparation
  | boosterReturn
  | starshipAscent
  | boosterLanding
  | mechazillaCatch
  | missionComplete
  deriving DecidableEq, Repr

/-- Driver state of main.js: the current phase, the mission clock, the
run flags, the physics engine, the catch simulation and the rendered
vehicle model transforms the commands copy positions from. -/
structure MissionState where
  currentPhase : MissionPhase
  missionTime : ℝ
  isSimulationRunning : Bool
  starshipAscending : Bool
  engine : Engine
  mech : CatchState
  meshSuperHeavyPos : Vec3
  meshStarshipPos : Vec3
  meshSuperHeavyQuat : Quat
  meshStarshipQuat : Quat

/-- startLaunch of main.js (part_003 lines 643 to 686): rejected outright
from any phase but Ready; otherwise the clock restarts, the engine is
reset, the engine vehicles take the rendered positions, the booster
throttle goes to full and the phase becomes Launch.  The DOM and camera
effects of the source are presentation layer and are not modelled. -/
def startLaunch (s : MissionState) : MissionState :=
  if s.currentPhase ≠ MissionPhase.ready then s
  else
    let e0 := reset s.engine
    let e1 := { e0 with
      superHeavy := { e0.superHeavy with position := s.meshSuperHeavyPos, throttle := 1.0 },
      starship := { e0.starship with position := s.meshStarshipPos } }
    { s with missionTime := 0, starshipAscending := false, engine := e1,
             currentPhase := MissionPhase.launch, isSimulationRunning := true }

/-- triggerStageSeparation of main.js (lines 689 to 722): rejected
outright from any phase but Ascent; otherwise the rendered starship is
stacked on the booster, the engine positions follow, the starship
velocity is matched to the booster and the phase becomes
StageSeparation. -/
def triggerStageSeparation (s : MissionState) : MissionState :=
  if s.currentPhase ≠ MissionPhase.ascent then s
  else
    let starshipOffset : Vec3 := ⟨0, 71 / 2 + 50 / 2 + 0.5, 0⟩
    let newStarshipPos := s.meshSuperHeavyPos.add starshipOffset
    let e := s.engine
    let newStarship :=
      { e.starship with position := newStarshipPos, velocity := e.superHeavy.velocity }
    let e1 := { e with
      superHeavy := { e.superHeavy with position := s.meshSuperHeavyPos },
      starship := newStarship }
    { s with meshStarshipPos := newStarshipPos,
             meshStarshipQuat := s.meshSuperHeavyQuat,
             engine := e1, currentPhase := MissionPhase.stageSeparation }

/-- startLandingSequence of main.js (lines 725 to 776): rejected outright
from any phase but BoosterReturn; otherwise the landing configuration is
created when still unset (the source tests JavaScript truthiness of
landingStartAltitude, here value 0), the booster throttle is set for
descent, the engine landing phase becomes coast with fresh phase timers
and the phase becomes BoosterLanding. -/
def startLandingSequence (s : MissionState) : MissionState :=
  if s.currentPhase ≠ MissionPhase.boosterReturn then s
  else
    let e := s.engine
    let e1 := if e.landingStartAltitude = 0 then
        { e with landingStartAltitude := 5000, hoverAltitude := 50, touchdownSpeed := 2 }
      else e
    let newParams :=
      { e1.landingParams with phaseStartTime := s.missionTime, currentPhaseTime := 0 }
    let e2 := { e1 with
      superHeavy := { e1.superHeavy with throttle := 0.3 },
      landingPhase := LandingPhase.coast,
      landingParams := newParams }
    { s with engine := e2, currentPhase := MissionPhase.boosterLanding }

/-- startMechazillaCatch of main.js (lines 779 to 823): rejected outright
from any phase but BoosterLanding; otherwise the catch simulation is
reset and initialized, tracking starts on the booster (rnd being the
tracking noise sample), the arms prepare for the catch and the phase
becomes MechazillaCatch. -/
def startMechazillaCatch (rnd : Vec3) (s : MissionState) : MissionState :=
  if s.currentPhase ≠ MissionPhase.boosterLanding then s
  else
    let m1 := initializeCatch (resetCatch s.mech)
    let m2 := (startTracking m1 s.engine.superHeavy.position
      s.engine.superHeavy.velocity rnd).1
    let m3 := (prepareForCatch m2).1
    { s with mech := m3, currentPhase := MissionPhase.mechazillaCatch }

/-
Sample states used by witnesses and counterexamples.
-/
/-- The verticalVelocity controller record of the engine constructor. -/
def pidSampleScalar : PIDScalar :=
  { kP := 0.2, kI := 0.01, kD := 0.1, setpoint := 0, integral := 0,
    previousError := 0, output := 0, maxOutput := 0.3, minOutput := -0.3 }

/-- The horizontalPosition controller record of the engine constructor. -/
def pidSampleVec2 : PIDVec2 :=
  { kP := 0.1, kI := 0.005, kD := 0.05, setpoint := Vec2.zero, integral := Vec2.zero,
    previousError := Vec2.zero, output := Vec2.zero, maxOutput := 0.2, minOutput := -0.2 }

/-- The attitude controller record of the engine constructor. -/
def pidSampleVec3 : PIDVec3 :=
  { kP := 0.5, kI := 0.01, kD := 0.2, setpoint := Vec3.zero, integral := Vec3.zero,
    previousError := Vec3.zero, output := Vec3.zero, maxOutput := 0.1, minOutput := -0.1 }

/-- Sample vehicle with exhausted propellant and full throttle, the
superHeavy configuration of the constructor with fuel 0. -/
def vehicleNoFuel : Vehicle :=
  { mass := 200000, fuel := 0, maxThrust := 72000000, dragCoefficient := 0.8,
    crossSectionalArea := 100, position := Vec3.zero, velocity := Vec3.zero,
    acceleration := Vec3.zero, rotation := Vec3.zero, angularVelocity := Vec3.zero,
    throttle := 1, active := true, gimbalPosition := Vec2.zero,
    gridFinDeflection := 0, gridFins := none, flaps := none }

/-- Sample pid controller triple at the constructor values, for sample
engines. -/
def samplePIDs : PIDControllers :=
  { verticalVelocity := pidSampleScalar,
    horizontalPosition := pidSampleVec2,
    attitude := pidSampleVec3 }

/-- Sample booster at rest, superHeavy constructor configuration. -/
def sampleSuperHeavy : Vehicle :=
  { mass := 200000, fuel := 3400000, maxThrust := 72000000,
    dragCoefficient := 0.8, crossSectionalArea := 100, position := Vec3.zero,
    velocity := Vec3.zero, acceleration := Vec3.zero, rotation := Vec3.zero,
    angularVelocity := Vec3.zero, throttle := 0, active := false,
    gimbalPosition := Vec2.zero, gridFinDeflection := 0,
    gridFins := some ⟨false, 0, 0.2⟩, flaps := none }

/-- Sample upper stage at rest, starship constructor configuration. -/
def sampleStarship : Vehicle :=
  { mass := 120000, fuel := 1200000, maxThrust := 7500000,
    dragCoefficient := 0.82, crossSectionalArea := Real.pi * 4.5 * 4.5,
    position := Vec3.zero,
    velocity := Vec3.zero, acceleration := Vec3.zero, rotation := Vec3.zero,
    angularVelocity := Vec3.zero, throttle := 0, active := false,
    gimbalPosition := Vec2.zero, gridFinDeflection := 0, gridFins := none,
    flaps := some ⟨false, 0, 0.3⟩ }

/-- Sample engine in vacuum (atmosphericDensity 0) with the constructor
gravity, used by the free fall witness. -/
def vacuumEngine : Engine :=
  { gravity := 9.81, atmosphericDensity := 0, airDensitySeaLevel := 1.225,
    atmosphereScaleHeight := 8500, windSpeed := 0, windDirection := 0, gustStrength := 0,
    turbulenceIntensity := 0, simulationTime := 0, combinedStage := true,
    separationCompleted := false, separationTimer := none,
    superHeavy := sampleSuperHeavy, starship := sampleStarship,
    landingTarget := Vec3.zero, landingPhase := LandingPhase.none,
    landingParams := ⟨0, 0⟩, pidControllers := samplePIDs, returnParams := none,
    landingStartAltitude := 0, hoverAltitude := 0, touchdownSpeed := 0 }

/-- Sample vehicle in free fall at 100 m with 5 m/s upward velocity. -/
def freefallVehicle : Vehicle :=
  { mass := 200000, fuel := 3400000, maxThrust := 72000000, dragCoefficient := 0.8,
    crossSectionalArea := 100, position := ⟨0, 100, 0⟩, velocity := ⟨0, 5, 0⟩,
    acceleration := Vec3.zero, rotation := Vec3.zero, angularVelocity := Vec3.zero,
    throttle := 0, active := true, gimbalPosition := Vec2.zero, gridFinDeflection := 0,
    gridFins := none, flaps := none }

/-- Sample vehicle at rest on the pad. -/
def restVehicle : Vehicle :=
  { mass := 200000, fuel := 3400000, maxThrust := 72000000, dragCoefficient := 0.8,
    crossSectionalArea := 100, position := ⟨0, 0, 0⟩, velocity := Vec3.zero,
    acceleration := Vec3.zero, rotation := Vec3.zero, angularVelocity := Vec3.zero,
    throttle := 0, active := true, gimbalPosition := Vec2.zero, gridFinDeflection := 0,
    gridFins := none, flaps := none }

/-- Sample engine with the constructor atmosphere and no wind, used by
the ground clamp witness. -/
def calmEngine : Engine :=
  { vacuumEngine with atmosphericDensity := 1.225 }

/-- Engine state as built by the ImprovedPhysicsEngine constructor
(lines 8 to 194): calm atmosphere, both vehicles fueled and inactive on
the pad, no separation or landing state.  JavaScript fields the
constructor leaves undefined (separationTimer, separationCompleted,
returnParams, landingStartAltitude) take their unset model values. -/
def initialEngine : Engine := calmEngine

/-- Engine left over from an aborted run: the booster tank is empty and
the booster return trajectory parameters are set (via
initializeBoosterReturn). -/
def staleEngine : Engine :=
  { initializeBoosterReturn initialEngine with
    superHeavy := { initialEngine.superHeavy with fuel := 0 } }

/-- Catch simulation armed for a catch, as prepareForCatch leaves it. -/
def mechArmedState : CatchState :=
  { mechInitialState with catchInProgress := true, trackingActive := true }

/-- Booster position aligned with the tower at exactly the arm catch
height (71 times 0.8 gives catch points at 56.8, so the matching booster
center height is 100 plus 14.2). -/
def catchAlignedPos : Vec3 := ⟨-50, 114.2, 0⟩

/-- Booster approaching the tower for the catch counterexample: 20 m
from the catch point and flying toward it at 400 m/s. -/
def mechBooster : Vehicle :=
  { mass := 200000, fuel := 3400000, maxThrust := 72000000, dragCoefficient := 0.8,
    crossSectionalArea := 100, position := ⟨-100, 100, 0⟩, velocity := ⟨-400, 0, 0⟩,
    acceleration := Vec3.zero, rotation := Vec3.zero, angularVelocity := Vec3.zero,
    throttle := 0.3, active := true, gimbalPosition := Vec2.zero, gridFinDeflection := 0,
    gridFins := none, flaps := none }

/-- Constructor engine carrying the approaching booster. -/
def mechEngine : Engine := { calmEngine with superHeavy := mechBooster }

/-- Atmospheric density factor at 100 m altitude. -/
def mechDf : ℝ := Real.exp (-(100 : ℝ) / 11000) * 1.225

/-
Theorems.
-/

namespace Vec2

@[ext] theorem ext2 {a b : Vec2} (hx : a.x = b.x) (hy : a.y = b.y) : a = b := by
  cases a; cases b; simp_all

theorem normSq2_nonneg (a : Vec2) : 0 ≤ a.normSq := by
  have hx := sq_nonneg a.x
  have hy := sq_nonneg a.y
  unfold normSq; linarith

theorem norm2_nonneg (a : Vec2) : 0 ≤ a.norm := Real.sqrt_nonneg _

theorem normSq2_smul (c : ℝ) (a : Vec2) : (smul c a).normSq = c ^ 2 * a.normSq := by
  simp only [smul, normSq]; ring

theorem norm2_smul (c : ℝ) (a : Vec2) : (smul c a).norm = |c| * a.norm := by
  simp only [norm, normSq2_smul]
  rw [Real.sqrt_mul (sq_nonneg c), Real.sqrt_sq_eq_abs]

theorem norm2_normalize (a : Vec2) (h : a.norm ≠ 0) : a.normalize.norm = 1 := by
  have hpos : 0 < a.norm := lt_of_le_of_ne a.norm2_nonneg (Ne.symm h)
  simp only [normalize, if_neg h, norm2_smul]
  rw [abs_of_pos (by positivity)]
  field_simp

end Vec2

namespace Vec3

@[ext] theorem ext3 {a b : Vec3} (hx : a.x = b.x) (hy : a.y = b.y) (hz : a.z = b.z) :
    a = b := by
  cases a; cases b; simp_all

theorem normSq3_nonneg (a : Vec3) : 0 ≤ a.normSq := by
  have hx := sq_nonneg a.x
  have hy := sq_nonneg a.y
  have hz := sq_nonneg a.z
  unfold normSq; linarith

theorem norm3_nonneg (a : Vec3) : 0 ≤ a.norm := Real.sqrt_nonneg _

theorem normSq3_smul (c : ℝ) (a : Vec3) : (smul c a).normSq = c ^ 2 * a.normSq := by
  simp only [smul, normSq]; ring

theorem norm3_smul (c : ℝ) (a : Vec3) : (smul c a).norm = |c| * a.norm := by
  simp only [norm, normSq3_smul]
  rw [Real.sqrt_mul (sq_nonneg c), Real.sqrt_sq_eq_abs]

theorem norm3_normalize (a : Vec3) (h : a.norm ≠ 0) : a.normalize.norm = 1 := by
  have hpos : 0 < a.norm := lt_of_le_of_ne a.norm3_nonneg (Ne.symm h)
  simp only [normalize, if_neg h, norm3_smul]
  rw [abs_of_pos (by positivity)]
  field_simp

/-- The length of a vector lying on the x axis is the absolute value of
its x component. -/
theorem norm_xAxis (c : ℝ) : norm ⟨c, 0, 0⟩ = |c| := by
  simp only [norm, normSq]
  rw [show c ^ 2 + 0 ^ 2 + 0 ^ 2 = c ^ 2 by ring, Real.sqrt_sq_eq_abs]

/-- The length of a vector lying on the y axis is the absolute value of
its y component. -/
theorem norm_yAxis (c : ℝ) : norm ⟨0, c, 0⟩ = |c| := by
  simp only [norm, normSq]
  rw [show 0 ^ 2 + c ^ 2 + 0 ^ 2 = c ^ 2 by ring, Real.sqrt_sq_eq_abs]

/-- Normalizing a positive multiple of the x axis yields the unit x axis. -/
theorem normalize_xAxis_pos (c : ℝ) (hc : 0 < c) : normalize ⟨c, 0, 0⟩ = ⟨1, 0, 0⟩ := by
  have hn : norm ⟨c, 0, 0⟩ = c := by rw [norm_xAxis, abs_of_pos hc]
  simp only [normalize, hn, if_neg (ne_of_gt hc), smul]
  ext <;> field_simp

/-- Normalizing a negative multiple of the x axis yields the negated unit
x axis. -/
theorem normalize_xAxis_neg (c : ℝ) (hc : c < 0) :
    normalize ⟨c, 0, 0⟩ = ⟨-1, 0, 0⟩ := by
  have hn : norm ⟨c, 0, 0⟩ = -c := by rw [norm_xAxis, abs_of_neg hc]
  have hne : -c ≠ 0 := by linarith
  simp only [normalize, hn, if_neg hne, smul]
  ext <;> field_simp

end Vec3

/-- The quaternion of the zero Euler angle triple is the identity. -/
theorem quatFromEulerXYZ_zero : quatFromEulerXYZ Vec3.zero = ⟨0, 0, 0, 1⟩ := by
  simp [quatFromEulerXYZ, Vec3.zero]

/-- Rotation by the identity quaternion leaves every vector unchanged. -/
theorem applyQuaternion_id (v : Vec3) : v.applyQuaternion ⟨0, 0, 0, 1⟩ = v := by
  simp only [Vec3.applyQuaternion]
  ext <;> ring

/-- Clamping a Vec2 by rescaling to length maxOutput never produces a
vector longer than a nonnegative maxOutput. -/
theorem Vec2.norm2_clamp_le (v : Vec2) (m : ℝ) (hm : 0 ≤ m) :
    (if v.norm > m then Vec2.smul m v.normalize else v).norm ≤ m := by
  by_cases h : v.norm > m
  · rw [if_pos h, Vec2.norm2_smul, Vec2.norm2_normalize, abs_of_nonneg hm, mul_one]
    intro h0
    rw [h0] at h
    exact absurd h (not_lt_of_le hm)
  · rw [if_neg h]
    exact le_of_not_lt h

/-- Clamping a Vec3 by rescaling to length maxOutput never produces a
vector longer than a nonnegative maxOutput. -/
theorem Vec3.norm3_clamp_le (v : Vec3) (m : ℝ) (hm : 0 ≤ m) :
    (if v.norm > m then Vec3.smul m v.normalize else v).norm ≤ m := by
  by_cases h : v.norm > m
  · rw [if_pos h, Vec3.norm3_smul, Vec3.norm3_normalize, abs_of_nonneg hm, mul_one]
    intro h0
    rw [h0] at h
    exact absurd h (not_lt_of_le hm)
  · rw [if_neg h]
    exact le_of_not_lt h

/-- C3: after any single updatePID call from any prior controller state
with a positive time step, the scalar controller output and accumulated
integral lie within the configured minOutput and maxOutput bounds, and
the Vec2 and Vec3 controller outputs and integrals are magnitude bounded
by maxOutput.  Since this holds for every incoming state, it holds after
each call of every sequence of calls. -/
theorem pid_output_and_integral_bounded
    (c : PIDScalar) (x : ℝ) (c2 : PIDVec2) (e2 : Vec2) (c3 : PIDVec3) (e3 : Vec3)
    (dt : ℝ) (hdt : 0 < dt) (hs : c.minOutput ≤ c.maxOutput)
    (h2 : 0 ≤ c2.maxOutput) (h3 : 0 ≤ c3.maxOutput) :
    (c.minOutput ≤ (updatePIDScalar c x dt).output ∧
     (updatePIDScalar c x dt).output ≤ c.maxOutput ∧
     c.minOutput ≤ (updatePIDScalar c x dt).integral ∧
     (updatePIDScalar c x dt).integral ≤ c.maxOutput) ∧
    ((updatePIDVec2 c2 e2 dt).output.norm ≤ c2.maxOutput ∧
     (updatePIDVec2 c2 e2 dt).integral.norm ≤ c2.maxOutput) ∧
    ((updatePIDVec3 c3 e3 dt).output.norm ≤ c3.maxOutput ∧
     (updatePIDVec3 c3 e3 dt).integral.norm ≤ c3.maxOutput) := by
  refine ⟨⟨?_, ?_, ?_, ?_⟩, ⟨?_, ?_⟩, ⟨?_, ?_⟩⟩
  · exact le_max_left _ _
  · exact max_le hs (min_le_left _ _)
  · exact le_max_left _ _
  · exact max_le hs (min_le_left _ _)
  · exact Vec2.norm2_clamp_le _ _ h2
  · exact Vec2.norm2_clamp_le _ _ h2
  · exact Vec3.norm3_clamp_le _ _ h3
  · exact Vec3.norm3_clamp_le _ _ h3

/-- Witness for C3 at the constructor controllers with unit error and a
one second step. -/
theorem pid_output_and_integral_bounded_witness :
    (pidSampleScalar.minOutput ≤ (updatePIDScalar pidSampleScalar 1 1).output ∧
     (updatePIDScalar pidSampleScalar 1 1).output ≤ pidSampleScalar.maxOutput ∧
     pidSampleScalar.minOutput ≤ (updatePIDScalar pidSampleScalar 1 1).integral ∧
     (updatePIDScalar pidSampleScalar 1 1).integral ≤ pidSampleScalar.maxOutput) ∧
    ((updatePIDVec2 pidSampleVec2 ⟨1, 0⟩ 1).output.norm ≤ pidSampleVec2.maxOutput ∧
     (updatePIDVec2 pidSampleVec2 ⟨1, 0⟩ 1).integral.norm ≤ pidSampleVec2.maxOutput) ∧
    ((updatePIDVec3 pidSampleVec3 ⟨1, 0, 0⟩ 1).output.norm ≤ pidSampleVec3.maxOutput ∧
     (updatePIDVec3 pidSampleVec3 ⟨1, 0, 0⟩ 1).integral.norm ≤ pidSampleVec3.maxOutput) :=
  pid_output_and_integral_bounded pidSampleScalar 1 pidSampleVec2 ⟨1, 0⟩
    pidSampleVec3 ⟨1, 0, 0⟩ 1 (by norm_num)
    (by norm_num [pidSampleScalar]) (by norm_num [pidSampleVec2])
    (by norm_num [pidSampleVec3])

/-- C6 (amended): the exponential atmosphere of calculateAirDensity is
strictly decreasing in altitude for every pair of altitudes, given a
positive sea level density and scale height (the engine uses 1.225 and
8500). -/
theorem calculateAirDensity_strictAnti (rho0 hscale a1 a2 : ℝ)
    (hrho : 0 < rho0) (hh : 0 < hscale) (h : a1 < a2) :
    calculateAirDensity rho0 hscale a2 < calculateAirDensity rho0 hscale a1 := by
  unfold calculateAirDensity
  have hexp : Real.exp (-a2 / hscale) < Real.exp (-a1 / hscale) := by
    apply Real.exp_lt_exp.mpr
    have h2 : -a2 < -a1 := neg_lt_neg h
    gcongr
  exact mul_lt_mul_of_pos_left hexp hrho

/-- Witness for C6 at the engine constants over the first pair of the
cited altitude sequence. -/
theorem calculateAirDensity_strictAnti_witness :
    calculateAirDensity 1.225 8500 10000 < calculateAirDensity 1.225 8500 0 :=
  calculateAirDensity_strictAnti 1.225 8500 0 10000 (by norm_num) (by norm_num)
    (by norm_num)

/-- Counterexample for C6: the layered model of
AerospacePhysicsEngine.updateAtmosphericConditions is not strictly
decreasing in every pair of altitudes: at the 50 km layer boundary the
pressure formula switches from the stratosphere expression (about 48 Pa
just below) back to a sea level referenced exponential (about 260 Pa at
50 km) while the temperature drops to 180 K, so the density JUMPS UP from
49000 m to 50000 m. -/
theorem layeredDensity_not_strictAnti :
    (49000 : ℝ) < 50000 ∧
    (updateAtmosphericConditions 49000).density <
      (updateAtmosphericConditions 50000).density := by
  constructor
  · norm_num
  · have h49 : (updateAtmosphericConditions 49000).density =
        22632 * Real.exp (-0.0001577 * (49000 - 11000)) / (287.05 * 216.65) := by
      unfold updateAtmosphericConditions
      rw [if_neg (by norm_num), if_pos (by norm_num)]
    have htemp : max (180 : ℝ) (500 - 50000 * 0.008) = 180 := by
      rw [max_eq_left (by norm_num)]
    have h50 : (updateAtmosphericConditions 50000).density =
        max 0.001 (101325 * Real.exp (-(50000 : ℝ) / 8400)) / (287.05 * 180) := by
      unfold updateAtmosphericConditions
      rw [if_neg (by norm_num), if_neg (by norm_num)]
      simp only [htemp]
    rw [h49, h50]
    have hE1 : Real.exp (-0.0001577 * ((49000 : ℝ) - 11000)) <
        Real.exp (-(50000 : ℝ) / 8400) := by
      apply Real.exp_lt_exp.mpr
      norm_num
    have hE2pos : (0 : ℝ) < Real.exp (-(50000 : ℝ) / 8400) := Real.exp_pos _
    have hE1pos : (0 : ℝ) < Real.exp (-0.0001577 * ((49000 : ℝ) - 11000)) := Real.exp_pos _
    have hstep : 22632 * Real.exp (-0.0001577 * ((49000 : ℝ) - 11000)) / (287.05 * 216.65) <
        101325 * Real.exp (-(50000 : ℝ) / 8400) / (287.05 * 180) := by
      rw [div_lt_div_iff₀ (by norm_num) (by norm_num)]
      nlinarith [hE1, hE2pos, hE1pos]
    refine lt_of_lt_of_le hstep ?_
    apply div_le_div_of_nonneg_right ?_ (by norm_num)
    exact le_max_right _ _

/-- Normalizing a positive multiple of the y axis yields the unit y axis. -/
theorem Vec3.normalize_yAxis_pos (c : ℝ) (hc : 0 < c) :
    Vec3.normalize ⟨0, c, 0⟩ = ⟨0, 1, 0⟩ := by
  have hn : Vec3.norm ⟨0, c, 0⟩ = c := by rw [Vec3.norm_yAxis, abs_of_pos hc]
  simp only [Vec3.normalize, hn, if_neg (ne_of_gt hc), Vec3.smul]
  ext <;> field_simp

/-- For an upright vehicle (zero Euler rotation, centered gimbal) with
positive throttle the thrust contribution points straight up with
magnitude maxThrust times throttle. -/
theorem thrustTerm_vertical (v : Vehicle) (hrot : v.rotation = Vec3.zero)
    (hgim : v.gimbalPosition = Vec2.zero) (ht : 0 < v.throttle) :
    thrustTerm v = ⟨0, v.maxThrust * v.throttle, 0⟩ := by
  have hq : quatFromEulerXYZ v.rotation = ⟨0, 0, 0, 1⟩ := by
    rw [hrot]; exact quatFromEulerXYZ_zero
  have hdir : (⟨v.gimbalPosition.x * 0.1, 1.0, v.gimbalPosition.y * 0.1⟩ : Vec3) =
      ⟨0, 1, 0⟩ := by
    rw [hgim]; simp [Vec2.zero]; norm_num
  simp only [thrustTerm, if_pos ht, hdir, hq, applyQuaternion_id]
  rw [Vec3.normalize_yAxis_pos 1 one_pos]
  simp [Vec3.smul]

/-- Counterexample for C1: a vehicle whose propellant has reached 0 while
the throttle remains at 1 still receives a nonzero thrust contribution
from calculateForces; the force model gates thrust on the throttle alone
and never consults the fuel level. -/
theorem thrust_nonzero_with_empty_tank :
    vehicleNoFuel.fuel = 0 ∧ 0 < vehicleNoFuel.throttle ∧
    thrustTerm vehicleNoFuel ≠ Vec3.zero := by
  refine ⟨rfl, by norm_num [vehicleNoFuel], ?_⟩
  have h : thrustTerm vehicleNoFuel = ⟨0, 72000000 * 1, 0⟩ := by
    rw [thrustTerm_vertical vehicleNoFuel rfl rfl (by norm_num [vehicleNoFuel])]
    rfl
  rw [h]
  intro hcontra
  have := congrArg Vec3.y hcontra
  norm_num [Vec3.zero] at this

/-- C1 (amended): the thrust contribution of calculateForces is zero
whenever the throttle is not positive, and it is entirely independent of
the propellant level: changing the fuel field changes nothing about the
thrust term, so with throttle positive the same thrust force applies even
after the propellant has reached 0. -/
theorem thrust_gated_by_throttle_only (v : Vehicle) :
    (v.throttle ≤ 0 → thrustTerm v = Vec3.zero) ∧
    (∀ fuelValue : ℝ, thrustTerm { v with fuel := fuelValue } = thrustTerm v) := by
  constructor
  · intro h
    simp only [thrustTerm, if_neg (not_lt.mpr h)]
  · intro fuelValue
    rfl

/-- C9: the numerical edge cases are guarded.  With a zero velocity
vector the drag contribution of calculateForces and the standalone
calculateDrag short circuit to the zero force (no normalization of a
zero length vector is consulted), and with a nonpositive total mass
updateVehiclePhysics skips the acceleration, velocity and position
update instead of dividing by zero. -/
theorem numeric_edge_guards (e : Engine) (v : Vehicle) (altitude deltaTime : ℝ)
    (enginesOn isSuperHeavy : Bool) :
    (v.velocity = Vec3.zero →
      dragTerm e v = Vec3.zero ∧ calculateDrag e v altitude isSuperHeavy = Vec3.zero) ∧
    (v.mass + v.fuel ≤ 0 →
      (updateVehiclePhysics e v deltaTime enginesOn isSuperHeavy).1.acceleration =
        v.acceleration ∧
      (updateVehiclePhysics e v deltaTime enginesOn isSuperHeavy).1.velocity =
        v.velocity ∧
      (updateVehiclePhysics e v deltaTime enginesOn isSuperHeavy).1.position =
        v.position) := by
  constructor
  · intro hvel
    constructor
    · simp only [dragTerm, hvel]
      rw [if_neg]
      norm_num [Vec3.normSq, Vec3.zero]
    · simp only [calculateDrag, hvel]
      rw [if_pos]
      rw [show Vec3.norm Vec3.zero = 0 by
        simp [Vec3.norm, Vec3.normSq, Vec3.zero]]
      norm_num
  · intro hmass
    simp only [updateVehiclePhysics, calculateForces]
    rw [if_pos hmass]
    refine ⟨rfl, rfl, rfl⟩

/-- C2: every explicit mission command invoked from a phase other than
its documented predecessor returns the driver state unchanged (mission
phase, engine and catch simulation included): startLaunch acts only from
Ready, triggerStageSeparation only from Ascent, startLandingSequence only
from BoosterReturn and startMechazillaCatch only from BoosterLanding. -/
theorem commands_reject_wrong_phase (s : MissionState) (rnd : Vec3) :
    (s.currentPhase ≠ MissionPhase.ready → startLaunch s = s) ∧
    (s.currentPhase ≠ MissionPhase.ascent → triggerStageSeparation s = s) ∧
    (s.currentPhase ≠ MissionPhase.boosterReturn → startLandingSequence s = s) ∧
    (s.currentPhase ≠ MissionPhase.boosterLanding → startMechazillaCatch rnd s = s) := by
  refine ⟨fun h => ?_, fun h => ?_, fun h => ?_, fun h => ?_⟩
  · rw [startLaunch, if_pos h]
  · rw [triggerStageSeparation, if_pos h]
  · rw [startLandingSequence, if_pos h]
  · rw [startMechazillaCatch, if_pos h]

/-- With zero velocity, zero throttle and no wind, calculateForces
degenerates to pure gravity and leaves the vehicle record unchanged. -/
theorem forces_rest (e : Engine) (v : Vehicle) (dt : ℝ)
    (hvel : v.velocity = Vec3.zero) (hth : v.throttle = 0) (hw : e.windSpeed = 0) :
    calculateForces e v dt = (⟨0, -(e.gravity * (v.mass + v.fuel)), 0⟩, v) := by
  have hthrust : thrustTerm v = Vec3.zero := by
    rw [thrustTerm, if_neg]
    rw [hth]; norm_num
  have hnsq : v.velocity.normSq = 0 := by
    rw [hvel]; norm_num [Vec3.normSq, Vec3.zero]
  have hdrag : dragTerm e v = Vec3.zero := by
    rw [dragTerm]
    simp only [hnsq]
    norm_num
  have hfin : finTerm e v = Vec3.zero := by
    rw [finTerm]
    split
    · simp [hnsq, Vec3.zero]
    · rfl
  have hfa : finAngularDelta e v dt = 0 := by
    rw [finAngularDelta]
    split
    · simp [hnsq]
    · rfl
  have hwind : windTerm e v = Vec3.zero := by
    rw [windTerm, if_neg]
    rw [hw]; simp
  rw [calculateForces, hthrust, hdrag, hfin, hwind, hfa]
  refine Prod.ext ?_ ?_
  · show ((((gravityTerm e v).add Vec3.zero).add Vec3.zero).add Vec3.zero).add Vec3.zero =
      (⟨0, -(e.gravity * (v.mass + v.fuel)), 0⟩ : Vec3)
    simp [gravityTerm, Vec3.add, Vec3.zero]
  · show ({ v with angularVelocity := ⟨v.angularVelocity.x, v.angularVelocity.y,
      v.angularVelocity.z + 0⟩ } : Vehicle) = v
    rw [add_zero]

/-- With zero throttle in vacuum (atmosphericDensity 0) calculateForces
degenerates to pure gravity and leaves the vehicle record unchanged, for
every velocity: the drag magnitude vanishes with the density factor and
the fin and wind branches are gated on a positive density factor. -/
theorem forces_vacuum (e : Engine) (v : Vehicle) (dt : ℝ)
    (hth : v.throttle = 0) (hrho : e.atmosphericDensity = 0) :
    calculateForces e v dt = (⟨0, -(e.gravity * (v.mass + v.fuel)), 0⟩, v) := by
  have hdf : densityFactor e v = 0 := by
    rw [densityFactor, hrho, mul_zero]
  have hthrust : thrustTerm v = Vec3.zero := by
    rw [thrustTerm, if_neg]
    rw [hth]; norm_num
  have hdrag : dragTerm e v = Vec3.zero := by
    rw [dragTerm]
    split
    · simp [hdf, Vec3.smul, Vec3.zero]
    · rfl
  have hfin : finTerm e v = Vec3.zero := by
    rw [finTerm, if_neg]
    rw [hdf]; norm_num
  have hfa : finAngularDelta e v dt = 0 := by
    rw [finAngularDelta, if_neg]
    rw [hdf]; norm_num
  have hwind : windTerm e v = Vec3.zero := by
    rw [windTerm, if_neg]
    rw [hdf]; norm_num
  rw [calculateForces, hthrust, hdrag, hfin, hwind, hfa]
  refine Prod.ext ?_ ?_
  · show ((((gravityTerm e v).add Vec3.zero).add Vec3.zero).add Vec3.zero).add Vec3.zero =
      (⟨0, -(e.gravity * (v.mass + v.fuel)), 0⟩ : Vec3)
    simp [gravityTerm, Vec3.add, Vec3.zero]
  · show ({ v with angularVelocity := ⟨v.angularVelocity.x, v.angularVelocity.y,
      v.angularVelocity.z + 0⟩ } : Vehicle) = v
    rw [add_zero]

/-- C8: exact free fall integration.  For an active vehicle with zero
throttle in vacuum (atmosphericDensity 0, which kills drag, fin and wind
forces), positive total mass, a time step within the 0.1 stability cap
and no ground contact during the step, a single engine update leaves the
vertical velocity at exactly v0 minus gravity times the time step, for
every initial vertical velocity and every configured gravity. -/
theorem freefall_exact (e : Engine) (v : Vehicle) (dt : ℝ)
    (hact : v.active = true) (hth : v.throttle = 0) (hrho : e.atmosphericDensity = 0)
    (hm : 0 < v.mass + v.fuel) (hcap : dt ≤ 0.1)
    (hground : 0 ≤ v.position.y + (v.velocity.y - e.gravity * dt) * dt) :
    (updateVehicle e v dt).velocity.y = v.velocity.y - e.gravity * dt := by
  have hactf : ¬ v.active = false := by rw [hact]; simp
  have hmin : min dt 0.1 = dt := min_eq_left hcap
  have hF := forces_vacuum e v dt hth hrho
  have hMne : v.mass + v.fuel ≠ 0 := ne_of_gt hm
  rw [updateVehicle, if_neg hactf]
  simp only [hmin, hF, hth]
  split
  · rename_i hclamp
    exfalso
    simp only [Vec3.add, Vec3.smul] at hclamp
    rw [show -(e.gravity * (v.mass + v.fuel)) / (v.mass + v.fuel) = -e.gravity by
      field_simp] at hclamp
    nlinarith [hclamp, hground]
  · simp only [Vec3.add, Vec3.smul]
    rw [show -(e.gravity * (v.mass + v.fuel)) / (v.mass + v.fuel) = -e.gravity by
      field_simp]
    ring

/-- C5: ground clamp idempotence.  A vehicle resting at altitude 0 with
zero velocity, zero acceleration and zero angular velocity, throttle 0,
no wind and nonnegative gravity stays exactly at altitude 0 with zero
velocity after a further update, both through the per vehicle body of
update and through updateVehiclePhysics: the only force is gravity, the
integrated position dips below ground and the clamp restores the rest
state (or, with zero gravity or a zero step, nothing moves at all). -/
theorem ground_clamp_idempotent (e : Engine) (v : Vehicle) (deltaTime : ℝ)
    (enginesOn isSuperHeavy : Bool)
    (hy : v.position.y = 0) (hvel : v.velocity = Vec3.zero)
    (_hacc : v.acceleration = Vec3.zero) (_hang : v.angularVelocity = Vec3.zero)
    (hth : v.throttle = 0) (hw : e.windSpeed = 0)
    (hg : 0 ≤ e.gravity) (hm : 0 < v.mass + v.fuel) :
    ((updateVehicle e v deltaTime).position.y = 0 ∧
     (updateVehicle e v deltaTime).velocity = Vec3.zero) ∧
    ((updateVehiclePhysics e v deltaTime enginesOn isSuperHeavy).1.position.y = 0 ∧
     (updateVehiclePhysics e v deltaTime enginesOn isSuperHeavy).1.velocity = Vec3.zero) := by
  have hMne : v.mass + v.fuel ≠ 0 := ne_of_gt hm
  have hF := forces_rest e v (min deltaTime 0.1) hvel hth hw
  have hay : -(e.gravity * (v.mass + v.fuel)) / (v.mass + v.fuel) = -e.gravity := by
    field_simp
  constructor
  · by_cases hact : v.active = false
    · rw [updateVehicle, if_pos hact]
      exact ⟨hy, hvel⟩
    · rw [updateVehicle, if_neg hact]
      simp only [hF, hvel]
      simp only [Vec3.add, Vec3.smul, Vec3.zero, hay, hy]
      split
      · constructor <;> rfl
      · rename_i hnc
        push_neg at hnc
        have hle : 0 + min deltaTime 0.1 * (0 + min deltaTime 0.1 * -e.gravity) ≤ 0 := by
          nlinarith [sq_nonneg (min deltaTime 0.1)]
        have hzero : min deltaTime 0.1 * -e.gravity = 0 := by
          rcases eq_or_ne (min deltaTime 0.1) 0 with h0 | h0
          · rw [h0]; ring
          · have h2 : (min deltaTime 0.1) ^ 2 > 0 := by positivity
            have heq : 0 + min deltaTime 0.1 * (0 + min deltaTime 0.1 * -e.gravity) = 0 :=
              le_antisymm hle hnc
            have : min deltaTime 0.1 ^ 2 * e.gravity = 0 := by nlinarith [heq]
            rcases mul_eq_zero.mp this with h | h
            · exact absurd h (ne_of_gt h2)
            · rw [h]; ring
        constructor
        · rw [show (0 : ℝ) + min deltaTime 0.1 * (0 + min deltaTime 0.1 * -e.gravity) =
            min deltaTime 0.1 * (min deltaTime 0.1 * -e.gravity) by ring, hzero, mul_zero]
        · refine Vec3.ext3 ?_ ?_ ?_ <;> simp [hzero]
  · rw [updateVehiclePhysics]
    simp only [hF]
    rw [if_neg (not_le.mpr hm)]
    simp only [hvel]
    simp only [Vec3.add, Vec3.smul, Vec3.zero, hay, hy]
    split
    · constructor <;> rfl
    · rename_i hnc
      push_neg at hnc
      have hle : 0 + min deltaTime 0.1 * (0 + min deltaTime 0.1 * -e.gravity) ≤ 0 := by
        nlinarith [sq_nonneg (min deltaTime 0.1)]
      have hzero : min deltaTime 0.1 * -e.gravity = 0 := by
        rcases eq_or_ne (min deltaTime 0.1) 0 with h0 | h0
        · rw [h0]; ring
        · have h2 : (min deltaTime 0.1) ^ 2 > 0 := by positivity
          have heq : 0 + min deltaTime 0.1 * (0 + min deltaTime 0.1 * -e.gravity) = 0 :=
            le_antisymm hle hnc
          have : min deltaTime 0.1 ^ 2 * e.gravity = 0 := by nlinarith [heq]
          rcases mul_eq_zero.mp this with h | h
          · exact absurd h (ne_of_gt h2)
          · rw [h]; ring
      constructor
      · rw [show (0 : ℝ) + min deltaTime 0.1 * (0 + min deltaTime 0.1 * -e.gravity) =
          min deltaTime 0.1 * (min deltaTime 0.1 * -e.gravity) by ring, hzero, mul_zero]
      · refine Vec3.ext3 ?_ ?_ ?_ <;> simp [hzero]

/-- Witness for C8 at a concrete vacuum engine and vehicle over the full
0.1 second step. -/
theorem freefall_exact_witness :
    (updateVehicle vacuumEngine freefallVehicle 0.1).velocity.y =
      freefallVehicle.velocity.y - vacuumEngine.gravity * 0.1 :=
  freefall_exact vacuumEngine freefallVehicle 0.1 rfl rfl rfl
    (by norm_num [freefallVehicle]) (by norm_num)
    (by norm_num [freefallVehicle, vacuumEngine])

/-- Witness for C5 at a concrete engine and a vehicle at rest over a
0.05 second step. -/
theorem ground_clamp_idempotent_witness :
    ((updateVehicle calmEngine restVehicle 0.05).position.y = 0 ∧
     (updateVehicle calmEngine restVehicle 0.05).velocity = Vec3.zero) ∧
    ((updateVehiclePhysics calmEngine restVehicle 0.05 true true).1.position.y = 0 ∧
     (updateVehiclePhysics calmEngine restVehicle 0.05 true true).1.velocity = Vec3.zero) :=
  ground_clamp_idempotent calmEngine restVehicle 0.05 true true rfl rfl rfl rfl rfl rfl
    (by norm_num [calmEngine, vacuumEngine]) (by norm_num [restVehicle])

/-- Counterexample for C7: reset does not restore the initial run state.
On an engine with an empty booster tank and live booster return
parameters, reset leaves the propellant at 0 (the constructor starts it
at 3400000 kg) and leaves the return trajectory parameters in place. -/
theorem reset_keeps_stale_state :
    (reset staleEngine).superHeavy.fuel = 0 ∧
    initialEngine.superHeavy.fuel = 3400000 ∧
    (reset staleEngine).superHeavy.fuel ≠ initialEngine.superHeavy.fuel ∧
    (reset staleEngine).returnParams ≠ initialEngine.returnParams := by
  have h1 : (reset staleEngine).superHeavy.fuel = 0 := rfl
  have h2 : initialEngine.superHeavy.fuel = 3400000 := rfl
  refine ⟨h1, h2, ?_, ?_⟩
  · rw [h1, h2]; norm_num
  · exact Option.some_ne_none _

/-- C7 (amended): reset reinitializes the vehicle kinematic state,
throttle, gimbal and grid fin deflection, the landing phase, the PID
controller integrals, previous errors, outputs and setpoints, the wind,
the separation state and the simulation clock, but it does NOT restore
the propellant of either vehicle, the booster return trajectory
parameters, or the landing parameter timers: those keep their previous
run values. -/
theorem reset_partial_reinit (e : Engine) :
    (reset e).superHeavy.position = ⟨0, 0.1, 0⟩ ∧
    (reset e).superHeavy.velocity = Vec3.zero ∧
    (reset e).superHeavy.acceleration = Vec3.zero ∧
    (reset e).superHeavy.angularVelocity = Vec3.zero ∧
    (reset e).superHeavy.throttle = 0 ∧
    (reset e).superHeavy.active = true ∧
    (reset e).starship.position = ⟨0, 60.75, 0⟩ ∧
    (reset e).starship.velocity = Vec3.zero ∧
    (reset e).landingPhase = LandingPhase.none ∧
    (reset e).pidControllers.verticalVelocity.integral = 0 ∧
    (reset e).pidControllers.verticalVelocity.previousError = 0 ∧
    (reset e).pidControllers.horizontalPosition.integral = Vec2.zero ∧
    (reset e).pidControllers.horizontalPosition.previousError = Vec2.zero ∧
    (reset e).pidControllers.attitude.integral = Vec3.zero ∧
    (reset e).pidControllers.attitude.previousError = Vec3.zero ∧
    (reset e).windSpeed = 0 ∧
    (reset e).gustStrength = 0 ∧
    (reset e).separationTimer = none ∧
    (reset e).separationCompleted = false ∧
    (reset e).combinedStage = true ∧
    (reset e).simulationTime = 0 ∧
    (reset e).superHeavy.fuel = e.superHeavy.fuel ∧
    (reset e).starship.fuel = e.starship.fuel ∧
    (reset e).returnParams = e.returnParams ∧
    (reset e).landingParams = e.landingParams := by
  refine ⟨rfl, rfl, rfl, rfl, rfl, rfl, rfl, rfl, rfl, rfl, rfl, rfl, rfl,
    rfl, rfl, rfl, rfl, rfl, rfl, rfl, rfl, rfl, rfl, rfl, rfl⟩

/-- C4: the catch outcome is decided at the step where the arms reach
the fully closed spread.  Starting from a live catch (in progress, arms
open, no outcome flag set) with the booster horizontally aligned with
the tower (under 5 m) and within the 2 m height band of the arms, on
the step where the closing motion brings the spread to at most 5 the
result sets catchSuccessful exactly when the vertical speed is under
2 m/s and the horizontal speed under 1 m/s, sets catchFailed exactly
otherwise, and closes the arms. -/
theorem catch_outcome_at_closure (s : CatchState) (bp bv : Vec3) (dt : ℝ)
    (hip : s.catchInProgress = true) (hopen : s.armsOpen = true)
    (hsf : s.catchSuccessful = false) (hff : s.catchFailed = false)
    (halign : Real.sqrt ((bp.x - s.towerPosition.x) ^ 2 + (bp.z - s.towerPosition.z) ^ 2) < 5)
    (hheight : |bp.y - (71 - s.catchPointsHeight) - s.armsVerticalPosition| < 2)
    (hclose : s.armsHorizontalPosition - s.armClosingSpeed * dt ≤ 5) :
    ((attemptCatch s bp bv dt).1.catchSuccessful = true ↔
      (|bv.y| < 2 ∧ Real.sqrt (bv.x ^ 2 + bv.z ^ 2) < 1)) ∧
    ((attemptCatch s bp bv dt).1.catchFailed = true ↔
      ¬ (|bv.y| < 2 ∧ Real.sqrt (bv.x ^ 2 + bv.z ^ 2) < 1)) ∧
    (attemptCatch s bp bv dt).1.armsOpen = false := by
  have hipf : ¬ s.catchInProgress = false := by rw [hip]; simp
  rw [attemptCatch, if_neg hipf, if_pos halign, if_pos hheight]
  rw [hopen]
  simp only [if_true]
  rw [if_pos hclose]
  by_cases hv : |bv.y| < 2 ∧ Real.sqrt (bv.x ^ 2 + bv.z ^ 2) < 1
  · rw [if_pos hv]
    refine ⟨by simp [hv], by simp [hff, hv], rfl⟩
  · rw [if_neg hv]
    refine ⟨by simp [hsf, hv], by simp [hv], rfl⟩

/-- Witness for C4: a stationary booster aligned with the tower at arm
height; over a 10 second step the arms close from spread 15 to 5 and the
catch succeeds. -/
theorem catch_outcome_at_closure_witness :
    ((attemptCatch mechArmedState catchAlignedPos Vec3.zero 10).1.catchSuccessful = true ↔
      (|Vec3.zero.y| < 2 ∧ Real.sqrt (Vec3.zero.x ^ 2 + Vec3.zero.z ^ 2) < 1)) ∧
    ((attemptCatch mechArmedState catchAlignedPos Vec3.zero 10).1.catchFailed = true ↔
      ¬ (|Vec3.zero.y| < 2 ∧ Real.sqrt (Vec3.zero.x ^ 2 + Vec3.zero.z ^ 2) < 1)) ∧
    (attemptCatch mechArmedState catchAlignedPos Vec3.zero 10).1.armsOpen = false :=
  catch_outcome_at_closure mechArmedState catchAlignedPos Vec3.zero 10 rfl rfl rfl rfl
    (by
      rw [show (catchAlignedPos.x - mechArmedState.towerPosition.x) ^ 2 +
          (catchAlignedPos.z - mechArmedState.towerPosition.z) ^ 2 = 0 by
        norm_num [catchAlignedPos, mechArmedState, mechInitialState]]
      rw [Real.sqrt_zero]; norm_num)
    (by norm_num [catchAlignedPos, mechArmedState, mechInitialState])
    (by norm_num [mechArmedState, mechInitialState])

/-- C10 (amended): the physics engine Mechazilla catch update reports
catchComplete exactly when the booster distance to the fixed catch point
(-120, 100, 0) measured at the START of the step (before the physics
integration moves the booster) is below 10 meters, for every engine
state and time step and hence independent of the booster velocity or
alignment: no velocity gate exists on this path. -/
theorem mechCatchComplete_iff_preDistance (e : Engine) (deltaTime : ℝ) :
    ((updateMechazillaCatch e deltaTime).2.catchComplete ↔
      e.superHeavy.position.distTo mechCatchPosition < 10) :=
  Iff.rfl

theorem mechDf_pos : 0 < mechDf := mul_pos (Real.exp_pos _) (by norm_num)

theorem mechDf_le : mechDf ≤ 1.225 := by
  have h : Real.exp (-(100 : ℝ) / 11000) ≤ 1 :=
    Real.exp_le_one_iff.mpr (by norm_num)
  have := Real.exp_pos (-(100 : ℝ) / 11000)
  unfold mechDf
  nlinarith

theorem mechPreDist : mechEngine.superHeavy.position.distTo mechCatchPosition = 20 := by
  show mechBooster.position.distTo mechCatchPosition = 20
  rw [Vec3.distTo, show Vec3.sub mechBooster.position mechCatchPosition = ⟨20, 0, 0⟩ by
    simp [mechBooster, mechCatchPosition, Vec3.sub]; norm_num]
  rw [Vec3.norm_xAxis]; norm_num

/-- One physics step on the approaching booster, for any guidance
acceleration (it is overwritten by the integrator) and the throttle the
catch guidance computed: the booster crosses to within centimeters of
the catch point. -/
theorem mechStep_eval (A : Vec3) (t : ℝ) (ht : t = 0.18) :
    (updateVehiclePhysics mechEngine
      { mechEngine.superHeavy with acceleration := A, throttle := t }
      0.05 true true).1.position =
    ⟨-120 + 1 / 225 * mechDf, 99.984475, 0⟩ := by
  set b : Vehicle := { mechEngine.superHeavy with acceleration := A, throttle := t }
    with hb
  have hbthr : b.throttle = t := rfl
  have hbvel : b.velocity = ⟨-400, 0, 0⟩ := rfl
  have hmin : min (0.05 : ℝ) 0.1 = 0.05 := by norm_num
  have hgrav : gravityTerm mechEngine b = ⟨0, -35316000, 0⟩ := by
    simp [gravityTerm, mechEngine, calmEngine, vacuumEngine, hb, mechBooster]
    norm_num
  have hthrust : thrustTerm b = ⟨0, 12960000, 0⟩ := by
    rw [thrustTerm_vertical b rfl rfl (by rw [hbthr, ht]; norm_num)]
    rw [show b.maxThrust * b.throttle = 72000000 * t from rfl, ht]
    norm_num
  have hnsq : b.velocity.normSq = 160000 := by
    rw [hbvel]; norm_num [Vec3.normSq]
  have hdf : densityFactor mechEngine b = mechDf := by
    simp [densityFactor, mechEngine, calmEngine, vacuumEngine, hb, mechBooster, mechDf]
  have hdrag : dragTerm mechEngine b = ⟨6400000 * mechDf, 0, 0⟩ := by
    rw [dragTerm]
    simp only [hnsq]
    rw [if_pos (by norm_num)]
    rw [hbvel, Vec3.normalize_xAxis_neg (-400) (by norm_num)]
    rw [hdf]
    show Vec3.smul (0.5 * mechDf * 160000 * b.dragCoefficient * b.crossSectionalArea)
      (Vec3.neg ⟨-1, 0, 0⟩) = ⟨6400000 * mechDf, 0, 0⟩
    rw [show b.dragCoefficient = (0.8 : ℝ) from rfl,
        show b.crossSectionalArea = (100 : ℝ) from rfl]
    simp [Vec3.neg, Vec3.smul]
    ring
  have hfin : finTerm mechEngine b = Vec3.zero := by
    rw [finTerm, if_neg]
    intro hcontra
    exact hcontra.1 rfl
  have hfa : finAngularDelta mechEngine b 0.05 = 0 := by
    rw [finAngularDelta, if_neg]
    intro hcontra
    exact hcontra.1 rfl
  have hwind : windTerm mechEngine b = Vec3.zero := by
    rw [windTerm, if_neg]
    intro hcontra
    have : (0 : ℝ) > 0 := hcontra.1
    exact absurd this (lt_irrefl 0)
  have hforces : calculateForces mechEngine b 0.05 =
      (⟨6400000 * mechDf, -22356000, 0⟩, b) := by
    rw [calculateForces, hgrav, hthrust, hdrag, hfin, hwind, hfa]
    refine Prod.ext ?_ ?_
    · simp [Vec3.add, Vec3.zero]
      norm_num
    · show ({ b with angularVelocity := ⟨b.angularVelocity.x, b.angularVelocity.y,
        b.angularVelocity.z + 0⟩ } : Vehicle) = b
      rw [add_zero]
  rw [updateVehiclePhysics]
  simp only [hmin, hforces]
  rw [if_neg (show ¬ (b.mass + b.fuel ≤ 0) by
    rw [show b.mass = (200000 : ℝ) from rfl, show b.fuel = (3400000 : ℝ) from rfl]
    norm_num)]
  simp only [Vec3.add, Vec3.smul]
  rw [show b.position = (⟨-100, 100, 0⟩ : Vec3) from rfl,
      show b.velocity = (⟨-400, 0, 0⟩ : Vec3) from rfl,
      show b.mass = (200000 : ℝ) from rfl, show b.fuel = (3400000 : ℝ) from rfl]
  rw [if_neg (show ¬ ((100 : ℝ) + 0.05 * (0 + 0.05 * (-22356000 / (200000 + 3400000))) < 0)
    by norm_num)]
  refine Vec3.ext3 ?_ ?_ ?_
  · show (-100 : ℝ) + 0.05 * (-400 + 0.05 * (6400000 * mechDf / (200000 + 3400000))) =
      -120 + 1 / 225 * mechDf
    field_simp
    ring
  · show (100 : ℝ) + 0.05 * (0 + 0.05 * (-22356000 / (200000 + 3400000))) = 99.984475
    norm_num
  · show (0 : ℝ) + 0.05 * (0 + 0.05 * (0 / (200000 + 3400000))) = 0
    norm_num

theorem mechPostPos : (updateMechazillaCatch mechEngine 0.05).2.position =
    ⟨-120 + 1 / 225 * mechDf, 99.984475, 0⟩ := by
  have hthr : (0.1 + 0.2 * min 1.0
      (mechEngine.superHeavy.position.distTo mechCatchPosition / 50) : ℝ) = 0.18 := by
    rw [mechPreDist, show ((20 : ℝ) / 50) = 2 / 5 by norm_num,
        min_eq_right (by norm_num : (2 / 5 : ℝ) ≤ 1.0)]
    norm_num
  simp only [updateMechazillaCatch]
  rw [if_pos (show mechEngine.superHeavy.position.distTo mechCatchPosition < 50 by
    rw [mechPreDist]; norm_num)]
  show (updateVehiclePhysics mechEngine _ 0.05 true true).1.position = _
  exact mechStep_eval _ _ hthr

/-- Counterexample for C10: the catch completion flag is computed from
the booster position BEFORE the physics step, not at the end of the
step.  A booster 20 m from the catch point flying toward it at 400 m/s
ends the step within centimeters of the catch point (distance under
10 m), yet catchComplete is false because the pre step distance 20 was
compared against 10. -/
theorem mechCatchComplete_not_end_of_step :
    ¬ ((updateMechazillaCatch mechEngine 0.05).2.catchComplete ↔
       (updateMechazillaCatch mechEngine 0.05).2.position.distTo mechCatchPosition
         < 10) := by
  intro hiff
  have hcc : ¬ (updateMechazillaCatch mechEngine 0.05).2.catchComplete := by
    show ¬ (mechEngine.superHeavy.position.distTo mechCatchPosition < 10)
    rw [mechPreDist]; norm_num
  apply hcc
  apply hiff.mpr
  rw [mechPostPos]
  rw [Vec3.distTo, show Vec3.sub (⟨-120 + 1 / 225 * mechDf, 99.984475, 0⟩ : Vec3)
      mechCatchPosition = ⟨1 / 225 * mechDf, -0.015525, 0⟩ by
    simp [Vec3.sub, mechCatchPosition]
    norm_num]
  rw [Vec3.norm]
  refine (Real.sqrt_lt' (by norm_num : (0 : ℝ) < 10)).mpr ?_
  have h1 := mechDf_pos
  have h2 := mechDf_le
  simp only [Vec3.normSq]
  nlinarith [h1, h2]
